import Mathlib

/-!
Shallow embedding of `workplace_screening/detect_facemask/detect_facemask.py`
(class `FaceMaskDetector`).

Modelling choices:
* The TF-lite inference engine (`self.mask_model`, `set_tensor` / `invoke` /
  `get_tensor`) is an opaque, deterministic external collaborator; it is
  embedded as a pure function `mask_model : α → ℚ` from a face image to the
  scalar output probability `mask_prob[0][0]`.  Python floats are embedded as
  exact rationals, which is faithful for the threshold comparisons the code
  performs.
* The mutable object state touched by the functions under scrutiny
  (`self.faces`, `self.labels`, `self.colors`) is a record, passed and
  returned explicitly.  `self.faces` is produced by the external face
  detector (`detect_faces`, in the `ImageAndVideo` superclass, outside this
  repository slice), so the wrapper is modelled as running on a state whose
  `faces` field was already filled in by that collaborator.
* `print` side effects are captured as an explicit trace of `PrintEvent`s:
  the `'-'*100` separator line, the verbose probability line, and the
  unconditional `print(label)`.
* A Python function that ends without `return` yields `None`; this is the
  `none` of an `Option Bool` result.
* Python's substring test `"Wearing Mask" in label` is embedded as the
  executable contiguous-sublist test `strIn` on the character lists.
-/

/-- One textual output line produced by the Python `print` calls inside
`detect_facemask`: the dashes separator, the verbose
`Probability of wearing mask: {1-mask_prob[0][0]}` line (carrying the printed
rational), or the unconditional `print(label)` line. -/
inductive PrintEvent where
  | dashes : PrintEvent
  | maskProbability : ℚ → PrintEvent
  | labelText : String → PrintEvent
deriving DecidableEq

/-- The mutable state of a `FaceMaskDetector` object relevant to the
classification methods: the loaded model (as the pure engine function from a
face image to the scalar output probability), `self.faces` as produced by the
external face detector, and the `self.labels` / `self.colors` fields written
by `detect_facemask`.  Faces are an arbitrary type `α` since the pixel
buffers are opaque to this component. -/
structure FaceMaskDetector (α : Type) where
  mask_model : α → ℚ
  faces : List α
  labels : List String
  colors : List (ℕ × ℕ × ℕ)

/-- Does `sub` occur as a leading run of `s`?  Helper for the embedding of
Python's substring membership operator. -/
def startsWithChars : List Char → List Char → Bool
  | [], _ => true
  | _ :: _, [] => false
  | a :: as, b :: bs => a == b && startsWithChars as bs

/-- Python's `sub in s` on strings: `sub` occurs contiguously in `s`
(embedded on the character lists). -/
def strIn (sub : List Char) : List Char → Bool
  | [] => startsWithChars sub []
  | b :: bs => startsWithChars sub (b :: bs) || strIn sub bs

/-- The body of `detect_facemask`'s `for face in self.faces` loop
(`detect_facemask.py` lines 54-76).  `s` carries the object state (with
`self.labels` / `self.colors` already reset), `out` the `print` trace so far,
and the final argument the remaining faces.  The loop body computes the
engine probability, optionally prints the verbose lines, computes the label
by the inclusive threshold test `(1 - p) >= mask_probability`, the colour by
`"Wearing Mask" in label`, unconditionally prints the label, appends the
(label, colour) pair, and then — inside the loop body — returns `True` or
`False` according to the same membership test, so the tail of the face list
is never visited. -/
def detect_facemask_loop (mask_probability : ℚ) (verbose : Bool)
    (s : FaceMaskDetector α) (out : List PrintEvent) :
    List α → FaceMaskDetector α × List PrintEvent × Option Bool
  | [] => (s, out, none)
  | face :: _rest =>
    let mask_prob := s.mask_model face
    let out1 := if verbose then
        out ++ [PrintEvent.dashes, PrintEvent.maskProbability (1 - mask_prob)]
      else out
    let label := if 1 - mask_prob ≥ mask_probability then "Wearing Mask" else "No Mask"
    let color : ℕ × ℕ × ℕ :=
      if strIn "Wearing Mask".data label.data then (0, 102, 0) else (33, 33, 183)
    let out2 := out1 ++ [PrintEvent.labelText label]
    let s1 := { s with labels := s.labels ++ [label], colors := s.colors ++ [color] }
    if strIn "Wearing Mask".data label.data then (s1, out2, some true)
    else (s1, out2, some false)

/-- `FaceMaskDetector.detect_facemask` (`detect_facemask.py` lines 35-76):
resets `self.labels` and `self.colors` to empty lists, then runs the per-face
loop over `self.faces`.  Returns the updated object state, the `print`
trace, and the Python return value (`none` models Python's implicit `None`
when the face list is empty). -/
def detect_facemask (s : FaceMaskDetector α) (mask_probability : ℚ) (verbose : Bool) :
    FaceMaskDetector α × List PrintEvent × Option Bool :=
  detect_facemask_loop mask_probability verbose
    { s with labels := [], colors := [] } [] s.faces

/-- The `for label in self.labels` loop at the end of
`capture_frame_and_detect_facemask` (lines 101-105): `True` as soon as some
label contains `"Wearing Mask"`, else `False` after the whole list. -/
def wearing_mask_in_labels : List String → Bool
  | [] => false
  | label :: rest =>
    if strIn "Wearing Mask".data label.data then true else wearing_mask_in_labels rest

/-- `FaceMaskDetector.capture_frame_and_detect_facemask`
(`detect_facemask.py` lines 79-105).  `capture_frame_and_load_image` and
`detect_faces(probability=face_probability)` are external collaborators that
fill in `s.faces`, so the embedding starts from a state whose `faces` field
they already produced; `face_probability` is only forwarded to that external
detector and `draw_boxes_around_faces` only renders, neither touches
`labels` / `colors`.  The method then runs `detect_facemask` and returns
`True` iff some resulting label contains `"Wearing Mask"`. -/
def capture_frame_and_detect_facemask (s : FaceMaskDetector α)
    (mask_probability face_probability : ℚ) (verbose : Bool) :
    FaceMaskDetector α × List PrintEvent × Bool :=
  let r := detect_facemask s mask_probability verbose
  (r.1, r.2.1, wearing_mask_in_labels r.1.labels)

/-- Default of the `mask_probability` parameter of `detect_facemask`
(line 35: `mask_probability=0.995`). -/
def detect_facemask_default_mask_probability : ℚ := 995 / 1000

/-- Default of the `mask_probability` parameter of
`capture_frame_and_detect_facemask` (line 79: `mask_probability=0.995`). -/
def capture_frame_and_detect_facemask_default_mask_probability : ℚ := 995 / 1000

/-- Default of the `mask_probability` parameter of
`capture_frame_and_detect_facemask_live` (line 108:
`mask_probability=0.975`, although its own docstring at line 114 states
`default=0.995`). -/
def capture_frame_and_detect_facemask_live_default_mask_probability : ℚ := 975 / 1000

/-- Default of the `face_probability` parameter of
`capture_frame_and_detect_facemask` (line 79: `face_probability=0.9`). -/
def capture_frame_and_detect_facemask_default_face_probability : ℚ := 9 / 10

/-- The label string `"Wearing Mask"` contains the substring
`"Wearing Mask"`. -/
lemma strIn_wearing_self : strIn "Wearing Mask".data "Wearing Mask".data = true := by
  decide

/-- The label string `"No Mask"` does not contain the substring
`"Wearing Mask"`. -/
lemma strIn_wearing_no : strIn "Wearing Mask".data "No Mask".data = false := by
  decide

/-- Unfolding `detect_facemask` on an empty face list: the loop body never
runs, labels and colours are reset to `[]`, nothing is printed, and Python's
implicit `None` is returned. -/
lemma detect_facemask_nil (model : α → ℚ) (L0 : List String)
    (C0 : List (ℕ × ℕ × ℕ)) (mp : ℚ) (v : Bool) :
    detect_facemask ⟨model, [], L0, C0⟩ mp v = (⟨model, [], [], []⟩, [], none) :=
  rfl

/-- Unfolding `detect_facemask` on a non-empty face list whose first face
passes the threshold: the first iteration labels it `"Wearing Mask"` and
returns `True`, so the rest of the faces is never visited. -/
lemma detect_facemask_cons_wearing (model : α → ℚ) (f : α) (rest : List α)
    (L0 : List String) (C0 : List (ℕ × ℕ × ℕ)) (mp : ℚ) (v : Bool)
    (h : 1 - model f ≥ mp) :
    detect_facemask ⟨model, f :: rest, L0, C0⟩ mp v =
      (⟨model, f :: rest, ["Wearing Mask"], [(0, 102, 0)]⟩,
       (if v then [PrintEvent.dashes, PrintEvent.maskProbability (1 - model f)] else [])
         ++ [PrintEvent.labelText "Wearing Mask"],
       some true) := by
  cases v <;>
    simp [detect_facemask, detect_facemask_loop, h, strIn, startsWithChars]

/-- Unfolding `detect_facemask` on a non-empty face list whose first face
fails the threshold: the first iteration labels it `"No Mask"` and returns
`False`, so the rest of the faces is never visited. -/
lemma detect_facemask_cons_nomask (model : α → ℚ) (f : α) (rest : List α)
    (L0 : List String) (C0 : List (ℕ × ℕ × ℕ)) (mp : ℚ) (v : Bool)
    (h : ¬ (1 - model f ≥ mp)) :
    detect_facemask ⟨model, f :: rest, L0, C0⟩ mp v =
      (⟨model, f :: rest, ["No Mask"], [(33, 33, 183)]⟩,
       (if v then [PrintEvent.dashes, PrintEvent.maskProbability (1 - model f)] else [])
         ++ [PrintEvent.labelText "No Mask"],
       some false) := by
  cases v <;>
    simp [detect_facemask, detect_facemask_loop, h, strIn, startsWithChars]

/-- The two label strings are distinct. -/
lemma wearing_ne_no : ("Wearing Mask" : String) ≠ "No Mask" := by decide

/-- C1: for every non-empty input sequence of faces, the per-face loop of
`detect_facemask` returns immediately after processing the first face, so
the labels, colours, print trace and return value coincide with those of the
singleton run on the first face alone, the returned value is determined by
the first face's threshold test, and the boolean produced through the
single-frame convenience path `capture_frame_and_detect_facemask` is exactly
the first face's verdict. -/
theorem detect_facemask_returns_after_first_face (model : α → ℚ) (f : α)
    (rest : List α) (L0 : List String) (C0 : List (ℕ × ℕ × ℕ))
    (mp fp : ℚ) (v : Bool) :
    ((detect_facemask ⟨model, f :: rest, L0, C0⟩ mp v).1.labels =
      (detect_facemask ⟨model, [f], L0, C0⟩ mp v).1.labels)
    ∧ ((detect_facemask ⟨model, f :: rest, L0, C0⟩ mp v).1.colors =
      (detect_facemask ⟨model, [f], L0, C0⟩ mp v).1.colors)
    ∧ ((detect_facemask ⟨model, f :: rest, L0, C0⟩ mp v).2 =
      (detect_facemask ⟨model, [f], L0, C0⟩ mp v).2)
    ∧ ((detect_facemask ⟨model, f :: rest, L0, C0⟩ mp v).2.2 =
      some (decide (1 - model f ≥ mp)))
    ∧ ((capture_frame_and_detect_facemask ⟨model, f :: rest, L0, C0⟩ mp fp v).2.2 =
      decide (1 - model f ≥ mp)) := by
  by_cases h : 1 - model f ≥ mp
  · simp [capture_frame_and_detect_facemask,
      detect_facemask_cons_wearing model f rest L0 C0 mp v h,
      detect_facemask_cons_wearing model f [] L0 C0 mp v h,
      wearing_mask_in_labels, strIn, startsWithChars, h]
  · simp [capture_frame_and_detect_facemask,
      detect_facemask_cons_nomask model f rest L0 C0 mp v h,
      detect_facemask_cons_nomask model f [] L0 C0 mp v h,
      wearing_mask_in_labels, strIn, startsWithChars, h]

/-- C2 (failing input): on the two-face input with engine probabilities
`[0, 0]` and the default threshold `0.995`, `detect_facemask` produces only
one label, while the claimed invariant demands one label per input face,
i.e. two. -/
theorem detect_facemask_label_count_bug :
    ((detect_facemask (⟨fun p => p, [(0 : ℚ), 0], [], []⟩ : FaceMaskDetector ℚ)
        (995/1000) false).1.labels.length = 1)
    ∧ ([(0 : ℚ), 0].length = 2) ∧ (1 : ℕ) ≠ 2 := by
  refine ⟨?_, rfl, by norm_num⟩
  rw [detect_facemask_cons_wearing (fun p => p) (0 : ℚ) [0] [] [] (995/1000) false
    (by norm_num)]
  rfl

/-- C3: for the face actually processed by `detect_facemask` (the first one,
with engine output `p = model f`), the label is `"Wearing Mask"` exactly
when `1 - p ≥ mask_probability` (inclusive at equality) and `"No Mask"`
exactly otherwise, and the colour is the dark-green tuple `(0, 102, 0)`
exactly when the label is `"Wearing Mask"` and the red-orange tuple
`(33, 33, 183)` exactly when it is `"No Mask"`. -/
theorem detect_facemask_threshold_label_color (model : α → ℚ) (f : α)
    (rest : List α) (L0 : List String) (C0 : List (ℕ × ℕ × ℕ))
    (mp : ℚ) (v : Bool) :
    ((detect_facemask ⟨model, f :: rest, L0, C0⟩ mp v).1.labels = ["Wearing Mask"]
      ↔ 1 - model f ≥ mp)
    ∧ ((detect_facemask ⟨model, f :: rest, L0, C0⟩ mp v).1.labels = ["No Mask"]
      ↔ ¬ (1 - model f ≥ mp))
    ∧ ((detect_facemask ⟨model, f :: rest, L0, C0⟩ mp v).1.colors = [(0, 102, 0)]
      ↔ (detect_facemask ⟨model, f :: rest, L0, C0⟩ mp v).1.labels = ["Wearing Mask"])
    ∧ ((detect_facemask ⟨model, f :: rest, L0, C0⟩ mp v).1.colors = [(33, 33, 183)]
      ↔ (detect_facemask ⟨model, f :: rest, L0, C0⟩ mp v).1.labels = ["No Mask"]) := by
  by_cases h : 1 - model f ≥ mp
  · simp [detect_facemask_cons_wearing model f rest L0 C0 mp v h, h, wearing_ne_no]
  · simp [detect_facemask_cons_nomask model f rest L0 C0 mp v h, h, wearing_ne_no.symm]

/-- C5: on an empty input sequence of faces, `detect_facemask` resets and
returns empty labels and colours, prints nothing, and yields Python's
implicit `None` — no error is raised (the embedding is a total function on
this input). -/
theorem detect_facemask_empty_input (model : α → ℚ) (L0 : List String)
    (C0 : List (ℕ × ℕ × ℕ)) (mp : ℚ) (v : Bool) :
    ((detect_facemask ⟨model, [], L0, C0⟩ mp v).1.labels = [])
    ∧ ((detect_facemask ⟨model, [], L0, C0⟩ mp v).1.colors = [])
    ∧ ((detect_facemask ⟨model, [], L0, C0⟩ mp v).2.1 = [])
    ∧ ((detect_facemask ⟨model, [], L0, C0⟩ mp v).2.2 = none) :=
  ⟨rfl, rfl, rfl, rfl⟩

/-- C6: running `detect_facemask` a second time from the state produced by a
first run — same faces, same threshold, same loaded model — reproduces the
first run's result exactly (labels, colours, print trace and return value):
the only state the first call mutates is overwritten deterministically by
the second. -/
theorem detect_facemask_idempotent (s : FaceMaskDetector α) (mp : ℚ) (v : Bool) :
    detect_facemask (detect_facemask s mp v).1 mp v = detect_facemask s mp v := by
  obtain ⟨model, faces, L0, C0⟩ := s
  cases faces with
  | nil => rfl
  | cons f rest =>
    by_cases h : 1 - model f ≥ mp
    · simp [detect_facemask_cons_wearing model f rest L0 C0 mp v h,
        detect_facemask_cons_wearing model f rest ["Wearing Mask"] [(0, 102, 0)] mp v h]
    · simp [detect_facemask_cons_nomask model f rest L0 C0 mp v h,
        detect_facemask_cons_nomask model f rest ["No Mask"] [(33, 33, 183)] mp v h]

/-- C4 (failing input): on the three-face input with engine probabilities
`[1, 0, 1]` and threshold `1/2` — whose faces, classified individually,
would be labelled `["No Mask", "Wearing Mask", "No Mask"]` as the last two
conjuncts show — `capture_frame_and_detect_facemask` returns `false`,
although the claimed OR-across-all-faces semantics demands `true`: the
early return discards every face after the first, so the summary boolean
sees only the first face's label. -/
theorem capture_frame_or_semantics_bug :
    ((capture_frame_and_detect_facemask
        (⟨fun p => p, [(1 : ℚ), 0, 1], [], []⟩ : FaceMaskDetector ℚ)
        (1/2) (9/10) false).2.2 = false)
    ∧ ((detect_facemask (⟨fun p => p, [(0 : ℚ)], [], []⟩ : FaceMaskDetector ℚ)
        (1/2) false).1.labels = ["Wearing Mask"])
    ∧ ((detect_facemask (⟨fun p => p, [(1 : ℚ)], [], []⟩ : FaceMaskDetector ℚ)
        (1/2) false).1.labels = ["No Mask"]) := by
  refine ⟨?_, ?_, ?_⟩
  · have hlem := detect_facemask_cons_nomask (fun p => p) (1 : ℚ) [0, 1] [] [] (1/2)
      false (by norm_num)
    simp only [capture_frame_and_detect_facemask, hlem]
    simp [wearing_mask_in_labels, strIn, startsWithChars]
  · rw [detect_facemask_cons_wearing (fun p => p) (0 : ℚ) [] [] [] (1/2) false
      (by norm_num)]
  · rw [detect_facemask_cons_nomask (fun p => p) (1 : ℚ) [] [] [] (1/2) false
      (by norm_num)]

/-- C7: `detect_facemask` performs no range validation on
`mask_probability`.  Given engine output probabilities in `[0, 1]`: with a
threshold strictly greater than `1` every label the call produces is
`"No Mask"`, and with a threshold at most `0` every label it produces is
`"Wearing Mask"`; in both cases the call completes normally (the embedding
is total — the source raises nothing on this path). -/
theorem detect_facemask_no_threshold_validation :
    (∀ (α : Type) (model : α → ℚ) (faces : List α) (L0 : List String)
        (C0 : List (ℕ × ℕ × ℕ)) (mp : ℚ) (v : Bool),
      1 < mp → (∀ f ∈ faces, 0 ≤ model f ∧ model f ≤ 1) →
      ∀ l ∈ (detect_facemask ⟨model, faces, L0, C0⟩ mp v).1.labels, l = "No Mask")
    ∧ (∀ (α : Type) (model : α → ℚ) (faces : List α) (L0 : List String)
        (C0 : List (ℕ × ℕ × ℕ)) (mp : ℚ) (v : Bool),
      mp ≤ 0 → (∀ f ∈ faces, 0 ≤ model f ∧ model f ≤ 1) →
      ∀ l ∈ (detect_facemask ⟨model, faces, L0, C0⟩ mp v).1.labels, l = "Wearing Mask") := by
  constructor
  · intro α model faces L0 C0 mp v hmp hp l hl
    cases faces with
    | nil => simp [detect_facemask_nil] at hl
    | cons f rest =>
      have hf := hp f (by simp)
      have h : ¬ (1 - model f ≥ mp) := by
        intro hge
        have h1 : (1 : ℚ) - model f ≤ 1 := by linarith [hf.1]
        linarith
      rw [detect_facemask_cons_nomask model f rest L0 C0 mp v h] at hl
      simpa using hl
  · intro α model faces L0 C0 mp v hmp hp l hl
    cases faces with
    | nil => simp [detect_facemask_nil] at hl
    | cons f rest =>
      have hf := hp f (by simp)
      have h : 1 - model f ≥ mp := by
        have h1 : (0 : ℚ) ≤ 1 - model f := by linarith [hf.2]
        linarith
      rw [detect_facemask_cons_wearing model f rest L0 C0 mp v h] at hl
      simpa using hl

/-- Witness for C7: concrete instances of both degenerate regimes, with the
out-of-range thresholds `2` and `-1` and a single face of engine
probability `1/2`. -/
theorem detect_facemask_no_threshold_validation_witness :
    ((1 : ℚ) < 2 ∧ (-1 : ℚ) ≤ 0 ∧ (0 : ℚ) ≤ 1/2 ∧ (1 : ℚ)/2 ≤ 1)
    ∧ (∀ l ∈ (detect_facemask (⟨fun p => p, [(1 : ℚ)/2], [], []⟩ : FaceMaskDetector ℚ)
        2 false).1.labels, l = "No Mask")
    ∧ (∀ l ∈ (detect_facemask (⟨fun p => p, [(1 : ℚ)/2], [], []⟩ : FaceMaskDetector ℚ)
        (-1) false).1.labels, l = "Wearing Mask") :=
  ⟨⟨by norm_num, by norm_num, by norm_num, by norm_num⟩,
   detect_facemask_no_threshold_validation.1 ℚ (fun p => p) [(1 : ℚ)/2] [] [] 2 false
     (by norm_num) (by intro f hf; simp at hf; subst hf; norm_num),
   detect_facemask_no_threshold_validation.2 ℚ (fun p => p) [(1 : ℚ)/2] [] [] (-1) false
     (by norm_num) (by intro f hf; simp at hf; subst hf; norm_num)⟩

/-- C8 (counterexample): with the verbosity flag off, a call to
`detect_facemask` on one face still prints — the unconditional
`print(label)` at line 68 — so the claim that all side effects beyond the
state writes are diagnostic logging gated by the verbosity flag is false:
the print trace of this call is nonempty. -/
theorem detect_facemask_prints_without_verbose :
    ((detect_facemask (⟨fun p => p, [(1 : ℚ)/2], [], []⟩ : FaceMaskDetector ℚ)
        (995/1000) false).2.1 = [PrintEvent.labelText "No Mask"])
    ∧ (detect_facemask (⟨fun p => p, [(1 : ℚ)/2], [], []⟩ : FaceMaskDetector ℚ)
        (995/1000) false).2.1 ≠ ([] : List PrintEvent) := by
  rw [detect_facemask_cons_nomask (fun p => p) ((1 : ℚ)/2) [] [] [] (995/1000) false
    (by norm_num)]
  exact ⟨rfl, by simp⟩

/-- C8 (amended): apart from printing — the per-face probability lines when
the verbosity flag is set, plus an unconditional print of each processed
face's label, which happens even with verbosity off — `detect_facemask`
has no other side effects: it writes no field of the classifier other than
`labels` and `colors` (the model handle and the faces are unchanged), and
with verbosity off every printed line is a label line. -/
theorem detect_facemask_side_effects_amended (model : α → ℚ) (faces : List α)
    (L0 : List String) (C0 : List (ℕ × ℕ × ℕ)) (mp : ℚ) (v : Bool) :
    ((detect_facemask ⟨model, faces, L0, C0⟩ mp v).1.faces = faces)
    ∧ ((detect_facemask ⟨model, faces, L0, C0⟩ mp v).1.mask_model = model)
    ∧ (∀ e ∈ (detect_facemask ⟨model, faces, L0, C0⟩ mp false).2.1,
        ∃ l, e = PrintEvent.labelText l) := by
  refine ⟨?_, ?_, ?_⟩
  · cases faces with
    | nil => rfl
    | cons f rest =>
      by_cases h : 1 - model f ≥ mp
      · rw [detect_facemask_cons_wearing model f rest L0 C0 mp v h]
      · rw [detect_facemask_cons_nomask model f rest L0 C0 mp v h]
  · cases faces with
    | nil => rfl
    | cons f rest =>
      by_cases h : 1 - model f ≥ mp
      · rw [detect_facemask_cons_wearing model f rest L0 C0 mp v h]
      · rw [detect_facemask_cons_nomask model f rest L0 C0 mp v h]
  · intro e he
    cases faces with
    | nil => simp [detect_facemask_nil] at he
    | cons f rest =>
      by_cases h : 1 - model f ≥ mp
      · rw [detect_facemask_cons_wearing model f rest L0 C0 mp false h] at he
        simp at he
        exact ⟨"Wearing Mask", he⟩
      · rw [detect_facemask_cons_nomask model f rest L0 C0 mp false h] at he
        simp at he
        exact ⟨"No Mask", he⟩

/-- Witness for the amended C8, at a one-face state with verbosity off:
the label line is in the trace, the faces and model fields are unchanged,
and the membership hypothesis is discharged concretely. -/
theorem detect_facemask_side_effects_amended_witness :
    (PrintEvent.labelText "No Mask" ∈
      (detect_facemask (⟨fun p => p, [(1 : ℚ)/2], [], []⟩ : FaceMaskDetector ℚ)
        (995/1000) false).2.1)
    ∧ ((detect_facemask (⟨fun p => p, [(1 : ℚ)/2], [], []⟩ : FaceMaskDetector ℚ)
        (995/1000) false).1.faces = [(1 : ℚ)/2])
    ∧ (∃ l, PrintEvent.labelText "No Mask" = PrintEvent.labelText l) := by
  have hmem : PrintEvent.labelText "No Mask" ∈
      (detect_facemask (⟨fun p => p, [(1 : ℚ)/2], [], []⟩ : FaceMaskDetector ℚ)
        (995/1000) false).2.1 := by
    rw [detect_facemask_cons_nomask (fun p => p) ((1 : ℚ)/2) [] [] [] (995/1000) false
      (by norm_num)]
    simp
  exact ⟨hmem,
    (detect_facemask_side_effects_amended (fun p => p) [(1 : ℚ)/2] [] [] (995/1000)
      false).1,
    (detect_facemask_side_effects_amended (fun p => p) [(1 : ℚ)/2] [] [] (995/1000)
      false).2.2 _ hmem⟩

/-- C9 (failing value): the default `mask_probability` is `0.995` in
`detect_facemask` and in `capture_frame_and_detect_facemask`, but the
live-stream variant's default is `0.975`, not the claimed `0.995` (its own
docstring states `default=0.995`). -/
theorem default_mask_probability_bug :
    (detect_facemask_default_mask_probability = 995/1000)
    ∧ (capture_frame_and_detect_facemask_default_mask_probability = 995/1000)
    ∧ (capture_frame_and_detect_facemask_live_default_mask_probability = 975/1000)
    ∧ capture_frame_and_detect_facemask_live_default_mask_probability ≠ 995/1000 := by
  refine ⟨rfl, rfl, rfl, ?_⟩
  norm_num [capture_frame_and_detect_facemask_live_default_mask_probability]

/-- C10: after every call to `detect_facemask`, the labels and colours
lists have equal length, and they correspond index-wise: the colour at each
position is the dark-green tuple exactly when the label at that position is
`"Wearing Mask"`, and the red-orange tuple otherwise (the two lists are
only appended to in lockstep pairs, starting from empty). -/
theorem detect_facemask_labels_colors_lockstep (model : α → ℚ) (faces : List α)
    (L0 : List String) (C0 : List (ℕ × ℕ × ℕ)) (mp : ℚ) (v : Bool) :
    ((detect_facemask ⟨model, faces, L0, C0⟩ mp v).1.labels.length =
      (detect_facemask ⟨model, faces, L0, C0⟩ mp v).1.colors.length)
    ∧ ∀ i : ℕ,
      (detect_facemask ⟨model, faces, L0, C0⟩ mp v).1.colors[i]? =
        ((detect_facemask ⟨model, faces, L0, C0⟩ mp v).1.labels[i]?).map
          (fun l => if l = "Wearing Mask" then ((0, 102, 0) : ℕ × ℕ × ℕ)
            else (33, 33, 183)) := by
  cases faces with
  | nil => exact ⟨rfl, fun i => rfl⟩
  | cons f rest =>
    by_cases h : 1 - model f ≥ mp
    · rw [detect_facemask_cons_wearing model f rest L0 C0 mp v h]
      refine ⟨rfl, fun i => ?_⟩
      match i with
      | 0 => simp
      | i + 1 => rfl
    · rw [detect_facemask_cons_nomask model f rest L0 C0 mp v h]
      refine ⟨rfl, fun i => ?_⟩
      match i with
      | 0 => simp [wearing_ne_no.symm]
      | i + 1 => rfl
